import Mathlib

/-!
Shallow embedding of the ApnaSwastha worker-registration service
(`src/app.py` — flat-file variant, `src/app_back.py` + `src/db.py` —
relational variant) and proofs about the claims of its specification.

The embedding models the parts of the Python runtime that the handlers
rely on (truthiness, `or` defaulting, `str.strip`, `int(...)` parsing,
`str.split`), the two persistence states (CSV rows resp. worker table,
plus the face / QR blob directories as association lists keyed by file
name), and the request handlers `create_worker`, `get_worker_qr` and
`generate_qr_generic` of both variants.  Image decoding (PIL
`Image.open`) and base64 decoding are libraries outside the repository;
they enter the model as explicit function parameters (`decode`, `b64`)
returning `Option`, which captures exactly the success/raise dichotomy
the handlers branch on.  The rendered QR picture is kept symbolic: a
`QrImg` records the build configuration, the encoded text and the
composited face (if any); those three data determine the PNG bytes, so
equality of `QrImg` values models byte-identical output.
-/

/-- A Python value as it can appear in the JSON request body for the
fields this service reads: `None`/absent, a string, or an integer.
(`data.get(k)` on a missing key yields `None`, modelled by `.none`.) -/
inductive PyVal where
  | none
  | str (s : String)
  | int (n : Int)
deriving DecidableEq, Repr

/-- Python truthiness for the modelled values: `None`, `""` and `0` are
falsy, everything else truthy. -/
def pyTruthy : PyVal → Bool
  | .none => false
  | .str s => s ≠ ""
  | .int n => n ≠ 0

/-- Python `v or d`. -/
def pyOr (v d : PyVal) : PyVal := if pyTruthy v then v else d

/-- Exceptions raised by the modelled Python fragments.  The handlers
wrap everything in `try/except Exception`, so the distinction only
matters for documentation. -/
inductive PyErr where
  | valueError
  | typeError
  | attrError
deriving DecidableEq, Repr

instance {ε α : Type} [DecidableEq ε] [DecidableEq α] : DecidableEq (Except ε α) := fun x y =>
  match x, y with
  | .ok a, .ok b =>
    if h : a = b then .isTrue (by rw [h])
    else .isFalse (fun hc => h (Except.ok.inj hc))
  | .error a, .error b =>
    if h : a = b then .isTrue (by rw [h])
    else .isFalse (fun hc => h (Except.error.inj hc))
  | .ok _, .error _ => .isFalse (fun hc => Except.noConfusion hc)
  | .error _, .ok _ => .isFalse (fun hc => Except.noConfusion hc)

/-- Python `s.strip()` on a string: drop leading and trailing
whitespace. -/
def stripStr (s : String) : String :=
  ⟨((s.data.dropWhile Char.isWhitespace).reverse.dropWhile Char.isWhitespace).reverse⟩

/-- Python `v.strip()`: only defined on strings; calling it on an int
(or `None`) raises `AttributeError`. -/
def pyStrip : PyVal → Except PyErr String
  | .str s => .ok (stripStr s)
  | _ => .error .attrError

/-- The idiom `(data.get(k) or '').strip()` used for every free-text
field of the submission. -/
def getStr (v : PyVal) : Except PyErr String := pyStrip (pyOr v (.str ""))

/-- Value of a digit string, `none` unless non-empty and all digits. -/
def digitsToNat : List Char → Option Nat
  | [] => Option.none
  | cs =>
    if cs.all Char.isDigit then
      Option.some (cs.foldl (fun acc c => acc * 10 + (c.toNat - 48)) 0)
    else Option.none

/-- Python `int(s)` on a string: surrounding whitespace, an optional
sign, then decimal digits; anything else raises `ValueError`.
(The underscore digit separators accepted by CPython are not modelled;
no claim touches them.) -/
def pyIntOfStr (s : String) : Option Int :=
  match (stripStr s).data with
  | '-' :: rest => (digitsToNat rest).map (fun n => -(n : Int))
  | '+' :: rest => (digitsToNat rest).map (fun n => (n : Int))
  | cs => (digitsToNat cs).map (fun n => (n : Int))

/-- Python `int(v)` on the modelled values. -/
def pyInt : PyVal → Except PyErr Int
  | .int n => .ok n
  | .str s =>
    match pyIntOfStr s with
    | Option.some n => .ok n
    | Option.none => .error .valueError
  | .none => .error .typeError

/-- `str` rendering of a stored cell (the CSV writer stringifies
values). -/
def pyValToStr : PyVal → String
  | .str s => s
  | .int n => toString n
  | .none => "None"

/-- `age = int(data.get('age') or 0) or ''` followed by `str(age)` when
the row is written: the flat-file cell stored for the age field. -/
def computeAge (v : PyVal) : Except PyErr String :=
  (pyInt (pyOr v (.int 0))).map (fun n => if n = 0 then "" else toString n)

/-- `age = int(data.get('age') or 0) or ''` followed by
`w.age = age or None` in the relational variant: the column value. -/
def ageDbOf (v : PyVal) : Except PyErr (Option Int) :=
  (pyInt (pyOr v (.int 0))).map
    (fun n => if n = 0 then Option.none else Option.some n)

/-- `vaccination_count = int(data.get('vaccinationCount') or 0)`. -/
def computeVacc (v : PyVal) : Except PyErr Int := pyInt (pyOr v (.int 0))

example : computeAge (.int 0) = .ok "" := by decide
example : computeAge (.str "0") = .ok "" := by decide
example : computeAge (.str "17") = .ok "17" := by decide
example : computeAge (.str "abc") = .error .valueError := by decide
example : computeAge .none = .ok "" := by decide
example : pyIntOfStr " 42 " = Option.some 42 := by decide
example : pyIntOfStr "-5" = Option.some (-5) := by decide

/-! ## QR composition (`_generate_qr_image`, `generate_qr_generic`) -/

/-- The `qrcode` library's error-correction constants used by the
service: `ERROR_CORRECT_L` (low, ≈7%) and `ERROR_CORRECT_M`
(medium, ≈15%). -/
inductive ECLevel where
  | L
  | M
deriving DecidableEq, Repr

/-- The keyword arguments of a `qrcode.QRCode(...)` construction. -/
structure QrConfig where
  version : Nat
  error_correction : ECLevel
  box_size : Nat
  border : Nat
deriving DecidableEq, Repr

/-- `qrcode.QRCode(version=2, error_correction=ERROR_CORRECT_M,
box_size=10, border=4)` — the worker QR built by `_generate_qr_image`
in both variants. -/
def workerQrConfig : QrConfig :=
  { version := 2, error_correction := .M, box_size := 10, border := 4 }

/-- `qrcode.QRCode(version=1, error_correction=ERROR_CORRECT_L,
box_size=10, border=4)` — the ad-hoc QR built by
`/api/generate-qr`. -/
def genericQrConfig : QrConfig :=
  { version := 1, error_correction := .L, box_size := 10, border := 4 }

/-- Raw bytes of a stored blob. -/
abbrev Bytes := List Nat

/-- A decoded face picture (the result of a successful
`Image.open(...).convert('RGB')`): its pixel dimensions and pixel
data. -/
structure Face where
  width : Nat
  height : Nat
  pix : List Nat
deriving DecidableEq, Repr

/-- Symbolic rendered QR picture.  The build configuration and the
encoded text determine the plain symbol (`qr.add_data(content);
qr.make(fit=True); qr.make_image(fill and back colors fixed)`), and
`overlay` records the face that was composited into the bottom-right
corner, if any; rendering is a pure function of these three fields, so
equality of `QrImg` values models byte-identical PNG output. -/
structure QrImg where
  cfg : QrConfig
  content : String
  overlay : Option Face
deriving DecidableEq, Repr

/-- An association-list store keyed by file name: models a directory of
files (`FACE_IMAGE_DIR`, `QR_IMAGE_DIR`). -/
abbrev Store (α : Type) := List (String × α)

/-- `os.path.exists` + read: the stored blob under a file name. -/
def lookupStore {α : Type} (st : Store α) (k : String) : Option α :=
  (st.find? (fun p => p.1 == k)).map (fun p => p.2)

/-- Writing a file: overwrite the entry if the name exists, create it
otherwise. -/
def insertStore {α : Type} (st : Store α) (k : String) (v : α) : Store α :=
  if st.any (fun p => p.1 == k) then
    st.map (fun p => if p.1 == k then (k, v) else p)
  else st ++ [(k, v)]

/-- The overlay part of `_generate_qr_image`: build the plain worker QR
for `content`, then, if a face file name was passed, the file exists
and PIL can decode it, composite the face thumbnail; any decode or
compositing failure is swallowed (`except Exception: pass`) and the
plain QR is kept.  `decode` stands for
`Image.open(path).convert('RGB')`, returning `none` when it raises. -/
def mkQrImg (decode : Bytes → Option Face) (content : String)
    (faces : Store Bytes) (face_filename : Option String) : QrImg :=
  let base : QrImg := { cfg := workerQrConfig, content := content, overlay := Option.none }
  match face_filename with
  | Option.none => base
  | Option.some fn =>
    match lookupStore faces fn with
    | Option.none => base
    | Option.some bs =>
      match decode bs with
      | Option.none => base
      | Option.some face => { base with overlay := Option.some face }

/-- `thumb_size = max(64, qr_img.size[0] // 6)`: the target square side
for the face thumbnail, as a function of the QR image's pixel width. -/
def thumbTarget (qrWidth : Nat) : Nat := max 64 (qrWidth / 6)

/-- PIL `Image.thumbnail((s, s))` on a `w × h` image: a no-op when the
image already fits in the `s × s` box, otherwise scale down so the
longer side becomes `s`, the shorter side scaling by the same ratio
(rounded to the nearest integer, at least 1).  PIL never scales up. -/
def pilThumbSquare (w h s : Nat) : Nat × Nat :=
  if w ≤ s ∧ h ≤ s then (w, h)
  else if h ≤ w then (s, max 1 ((2 * s * h + w) / (2 * w)))
  else (max 1 ((2 * s * w + h) / (2 * h)), s)

/-- Dimensions of the face thumbnail produced by `_generate_qr_image`
for a QR image of width `qrWidth` and a face picture of size
`w × h`. -/
def faceThumbDims (qrWidth w h : Nat) : Nat × Nat :=
  pilThumbSquare w h (thumbTarget qrWidth)

/-- The longer side of a rectangle. -/
def longSide (p : Nat × Nat) : Nat := max p.1 p.2

/-- `/api/generate-qr`: 400 when the `data` query parameter is missing
or empty (falsy), otherwise the ad-hoc low-error-correction symbol. -/
def generate_qr_generic (data : Option String) : Except Unit QrImg :=
  match data with
  | Option.none => .error ()
  | Option.some s =>
    if s = "" then .error ()
    else .ok { cfg := genericQrConfig, content := s, overlay := Option.none }

example : faceThumbDims 570 10 10 = (10, 10) := by decide
example : faceThumbDims 570 200 100 = (95, 48) := by decide
example : faceThumbDims 570 100 200 = (48, 95) := by decide
example : thumbTarget 330 = 64 := by decide

/-! ## The registration submission and its normalization -/

/-- The JSON body fields read by `create_worker` (both variants); a
field the caller omitted is `.none`. -/
structure Submission where
  healthId : PyVal
  fullName : PyVal
  age : PyVal
  gender : PyVal
  phone : PyVal
  address : PyVal
  nativeState : PyVal
  bloodGroup : PyVal
  maritalStatus : PyVal
  language : PyVal
  financialStatus : PyVal
  allergies : PyVal
  conditions : PyVal
  inheritedDiseases : PyVal
  previousTreatments : PyVal
  vaccinationCount : PyVal
  registrationDate : PyVal
  faceImage : PyVal
deriving DecidableEq, Repr

/-- A submission with every field absent. -/
def emptySubmission : Submission :=
  { healthId := .none, fullName := .none, age := .none, gender := .none,
    phone := .none, address := .none, nativeState := .none,
    bloodGroup := .none, maritalStatus := .none, language := .none,
    financialStatus := .none, allergies := .none, conditions := .none,
    inheritedDiseases := .none, previousTreatments := .none,
    vaccinationCount := .none, registrationDate := .none,
    faceImage := .none }

/-- `health_id = (data.get('healthId') or '').strip()`. -/
def stripHealth (sub : Submission) : Except PyErr String := getStr sub.healthId

/-- `json.dumps` of an ordered string-keyed object with
`ensure_ascii=False` and default separators.  (Escaping of special
characters inside values is not modelled; no claim depends on it.) -/
def jsonValStr : PyVal → String
  | .str s => "\"" ++ s ++ "\""
  | .int n => toString n
  | .none => "null"

def jsonDumps (l : List (String × PyVal)) : String :=
  "\x7b" ++ String.intercalate ", "
      (l.map (fun p => "\"" ++ p.1 ++ "\": " ++ jsonValStr p.2)) ++ "\x7d"

/-- The normalized field values computed by the flat-file
`create_worker` before any store is touched (`src/app.py` lines
132-143). -/
structure ParsedFlat where
  full_name : String
  age : String
  gender : String
  phone : String
  address : String
  native_state : String
  blood_group : String
  marital_status : String
  language : String
  financial_status : String
  registration_date : PyVal
deriving DecidableEq, Repr

/-- Field normalization of the flat-file `create_worker`, in source
order; the first raising field aborts the handler (caught as a 500). -/
def parseFlat (today : String) (sub : Submission) : Except PyErr ParsedFlat :=
  match getStr sub.fullName with
  | .error e => .error e
  | .ok full_name =>
  match computeAge sub.age with
  | .error e => .error e
  | .ok age =>
  match getStr sub.gender with
  | .error e => .error e
  | .ok gender =>
  match getStr sub.phone with
  | .error e => .error e
  | .ok phone =>
  match getStr sub.address with
  | .error e => .error e
  | .ok address =>
  match getStr sub.nativeState with
  | .error e => .error e
  | .ok native_state =>
  match getStr sub.bloodGroup with
  | .error e => .error e
  | .ok blood_group =>
  match getStr sub.maritalStatus with
  | .error e => .error e
  | .ok marital_status =>
  match getStr sub.language with
  | .error e => .error e
  | .ok language =>
  match getStr sub.financialStatus with
  | .error e => .error e
  | .ok financial_status =>
  .ok { full_name := full_name, age := age, gender := gender,
        phone := phone, address := address, native_state := native_state,
        blood_group := blood_group, marital_status := marital_status,
        language := language, financial_status := financial_status,
        registration_date := pyOr sub.registrationDate (.str today) }

/-- The QR payload of the flat-file variant (`src/app.py` lines
150-160): nine fields, in the written key order. -/
def qrPayloadApp (hid : String) (p : ParsedFlat) : List (String × PyVal) :=
  [("healthId", .str hid),
   ("fullName", .str p.full_name),
   ("gender", .str p.gender),
   ("address", .str p.address),
   ("nativeState", .str p.native_state),
   ("bloodGroup", .str p.blood_group),
   ("maritalStatus", .str p.marital_status),
   ("financialStatus", .str p.financial_status),
   ("registrationDate", p.registration_date)]

/-- Python `s.split(sep)` for a one-character separator. -/
def splitOnChar (c : Char) : List Char → List (List Char)
  | [] => [[]]
  | x :: xs =>
    match splitOnChar c xs with
    | [] => [[]]
    | g :: gs => if x = c then [] :: g :: gs else (x :: g) :: gs

/-- `face_b64_data.split(',')[1]` when a comma is present: the chunk
between the first and second comma (for a data URL, the payload after
the scheme marker), else the raw string. -/
def dataUrlPayload (s : String) : String :=
  if s.data.contains ',' then ⟨((splitOnChar ',' s.data).drop 1).headD []⟩ else s

/-- `_save_face_image` as called by `create_worker`
(`face_filename = _save_face_image(...) if face_b64 else ''`): the
returned file name and, when base64 decoding succeeded, the bytes
written to the face directory.  A non-string truthy value makes
`',' in face_b64_data` raise, which the inner `try` turns into `''`. -/
def faceOutcome (b64 : String → Option Bytes) (hid : String) (v : PyVal) :
    String × Option Bytes :=
  if pyTruthy v then
    match v with
    | .str s =>
      match b64 (dataUrlPayload s) with
      | Option.some bs => (hid ++ ".png", Option.some bs)
      | Option.none => ("", Option.none)
    | _ => ("", Option.none)
  else ("", Option.none)

/-! ## Flat-file persistence (`src/app.py`) -/

/-- One CSV row of the flat-file backend, in `FIELDNAMES` order. -/
structure Row where
  health_id : String
  full_name : String
  age : String
  gender : String
  phone : String
  address : String
  native_state : String
  blood_group : String
  marital_status : String
  language : String
  financial_status : String
  registration_date : String
  face_filename : String
  qr_filename : String
deriving DecidableEq, Repr

/-- The CSV schema of `src/app.py` (lines 34-38). -/
def FIELDNAMES : List String :=
  ["health_id", "full_name", "age", "gender", "phone", "address", "native_state",
   "blood_group", "marital_status", "language", "financial_status",
   "registration_date", "face_filename", "qr_filename"]

/-- The header row written at startup by `src/app_back.py`
(lines 40-45): the extended schema with the clinical fields. -/
def CSV_HEADER_BACK : List String :=
  ["health_id", "full_name", "age", "gender", "phone", "address", "native_state",
   "blood_group", "marital_status", "language", "financial_status",
   "allergies", "conditions", "inherited_diseases", "previous_treatments",
   "vaccination_count", "registration_date", "face_filename", "qr_filename"]

/-- The cells of a row as the `csv.DictWriter` emits them, in
`FIELDNAMES` order. -/
def rowToCells (r : Row) : List String :=
  [r.health_id, r.full_name, r.age, r.gender, r.phone, r.address,
   r.native_state, r.blood_group, r.marital_status, r.language,
   r.financial_status, r.registration_date, r.face_filename, r.qr_filename]

/-- The row dict built by the flat-file `create_worker` for `health_id`
from the normalized fields. -/
def mkRowFlat (hid : String) (p : ParsedFlat) (face_filename qr_filename : String) : Row :=
  { health_id := hid, full_name := p.full_name, age := p.age,
    gender := p.gender, phone := p.phone, address := p.address,
    native_state := p.native_state, blood_group := p.blood_group,
    marital_status := p.marital_status, language := p.language,
    financial_status := p.financial_status,
    registration_date := pyValToStr p.registration_date,
    face_filename := face_filename, qr_filename := qr_filename }

/-- The CSV rewrite of the flat-file `create_worker` (lines 164-210):
every existing row whose `health_id` matches is replaced by the new
row; when none matched the new row is appended at the end. -/
def upsertRows (hid : String) (nr : Row) (rows : List Row) : List Row :=
  if rows.any (fun r => r.health_id == hid) then
    rows.map (fun r => if r.health_id == hid then nr else r)
  else rows ++ [nr]

/-- The persistent state of the flat-file variant: the CSV file's rows
and the two blob directories. -/
structure FlatState where
  csv : List Row
  faces : Store Bytes
  qrs : Store QrImg
deriving DecidableEq, Repr

def emptyFlatState : FlatState := { csv := [], faces := [], qrs := [] }

/-- Responses of `POST /api/workers` that the claims distinguish:
201 created, 400 missing identifier, 500 caught exception. -/
inductive Resp where
  | created (healthId : String) (hasFace : Bool)
  | badRequest
  | serverError
deriving DecidableEq, Repr


/-- `POST /api/workers` of the flat-file variant (`src/app.py`
`create_worker`): validate the identifier, normalize the fields, store
the face image (if any decodes), compose and store the QR image, then
rewrite the CSV with the upserted row.  A raising step aborts with a
500 and leaves the later stores untouched; the CSV rewrite is the last
side effect. -/
def createWorkerFlat (b64 : String → Option Bytes) (decode : Bytes → Option Face)
    (today : String) (sub : Submission) (st : FlatState) : Resp × FlatState :=
  match stripHealth sub with
  | .error _ => (.serverError, st)
  | .ok hid =>
    if hid = "" then (.badRequest, st)
    else
      match parseFlat today sub with
      | .error _ => (.serverError, st)
      | .ok p =>
        let fo := faceOutcome b64 hid sub.faceImage
        let faces1 :=
          match fo.2 with
          | Option.some bs => insertStore st.faces (hid ++ ".png") bs
          | Option.none => st.faces
        let qr_text := jsonDumps (qrPayloadApp hid p)
        let qrImg := mkQrImg decode qr_text faces1
          (if fo.1 = "" then Option.none else Option.some fo.1)
        let qrs1 := insertStore st.qrs (hid ++ ".png") qrImg
        let row := mkRowFlat hid p fo.1 (hid ++ ".png")
        (.created hid (fo.1 != ""),
         { csv := upsertRows hid row st.csv, faces := faces1, qrs := qrs1 })

/-- `_read_worker` of the flat-file variant: the first CSV row with the
requested identifier. -/
def readWorkerFlat (rows : List Row) (hid : String) : Option Row :=
  rows.find? (fun r => r.health_id == hid)

/-- The QR payload rebuilt from a stored row on a cache miss
(`src/app.py` lines 241-251): same nine keys, values from the row. -/
def qrPayloadFromRow (row : Row) : List (String × PyVal) :=
  [("healthId", .str row.health_id),
   ("fullName", .str row.full_name),
   ("gender", .str row.gender),
   ("address", .str row.address),
   ("nativeState", .str row.native_state),
   ("bloodGroup", .str row.blood_group),
   ("maritalStatus", .str row.marital_status),
   ("financialStatus", .str row.financial_status),
   ("registrationDate", .str row.registration_date)]

/-- Responses of `GET /api/workers/{id}/qr.png`. -/
inductive QrResp where
  | png (img : QrImg)
  | notFound
deriving DecidableEq, Repr

/-- The image `_generate_qr_image` writes when `get_worker_qr`
regenerates from a stored flat-file row. -/
def regenImgFlat (decode : Bytes → Option Face) (st : FlatState) (row : Row) : QrImg :=
  mkQrImg decode (jsonDumps (qrPayloadFromRow row)) st.faces
    (if row.face_filename = "" then Option.none else Option.some row.face_filename)

/-- `GET /api/workers/{id}/qr.png` of the flat-file variant
(`src/app.py` `get_worker_qr`): serve the cached file; on a miss, 404
unless the worker row exists, in which case the QR is rebuilt from the
stored row (plus any stored face file), persisted, and served. -/
def getWorkerQrFlat (decode : Bytes → Option Face) (hid : String)
    (st : FlatState) : QrResp × FlatState :=
  match lookupStore st.qrs (hid ++ ".png") with
  | Option.some img => (.png img, st)
  | Option.none =>
    match readWorkerFlat st.csv hid with
    | Option.none => (.notFound, st)
    | Option.some row =>
      let img := regenImgFlat decode st row
      (.png img, { st with qrs := insertStore st.qrs (hid ++ ".png") img })

/-! ## Relational variant (`src/app_back.py`, `src/db.py`) -/

/-- A calendar date as stored in the `DateTime` column (time part
always midnight here). -/
structure DateT where
  y : Nat
  m : Nat
  d : Nat
deriving DecidableEq, Repr

def isLeap (y : Nat) : Bool := y % 4 == 0 && (y % 100 != 0 || y % 400 == 0)

def daysInMonth (y m : Nat) : Nat :=
  if m = 2 then (if isLeap y then 29 else 28)
  else if m = 4 ∨ m = 6 ∨ m = 9 ∨ m = 11 then 30
  else 31

/-- `datetime.strptime(s, '%Y-%m-%d')`: three dash-separated digit
groups forming a valid calendar date, else `ValueError`.  (CPython's
exact field-width rules for the directives are approximated by
digits-only groups; no claim exercises the difference.) -/
def parseDatePy (s : String) : Except PyErr DateT :=
  match (splitOnChar '-' s.data).map digitsToNat with
  | [Option.some y, Option.some m, Option.some d] =>
    if 1 ≤ m ∧ m ≤ 12 ∧ 1 ≤ d ∧ d ≤ daysInMonth y m ∧ y ≤ 9999 then
      .ok { y := y, m := m, d := d }
    else .error .valueError
  | _ => .error .valueError

def pad2 (n : Nat) : String := if n < 10 then "0" ++ toString n else toString n

def pad4 (n : Nat) : String :=
  if n < 10 then "000" ++ toString n
  else if n < 100 then "00" ++ toString n
  else if n < 1000 then "0" ++ toString n
  else toString n

/-- `d.strftime('%Y-%m-%d')`. -/
def dateStr (d : DateT) : String := pad4 d.y ++ "-" ++ pad2 d.m ++ "-" ++ pad2 d.d

/-- The `workers` table row of `src/db.py` (the autoincrement surrogate
`id` is never read by the modelled handlers and is omitted). -/
structure DBWorkerR where
  health_id : String
  full_name : String
  age : Option Int
  gender : String
  phone : String
  address : String
  native_state : String
  blood_group : String
  marital_status : String
  language : String
  financial_status : String
  allergies : String
  conditions : String
  inherited_diseases : String
  previous_treatments : String
  vaccination_count : Int
  registration_date : DateT
  face_filename : String
  qr_filename : String
deriving DecidableEq, Repr

/-- The normalized field values computed by the relational
`create_worker` before any store is touched (`src/app_back.py` lines
164-180).  `registration_date` stays raw here: `strptime` only runs
later, inside the database block. -/
structure ParsedBack where
  full_name : String
  age : Option Int
  gender : String
  phone : String
  address : String
  native_state : String
  blood_group : String
  marital_status : String
  language : String
  financial_status : String
  allergies : String
  conditions : String
  inherited_diseases : String
  previous_treatments : String
  vaccination_count : Int
  registration_date : PyVal
deriving DecidableEq, Repr

/-- Field normalization of the relational `create_worker`, in source
order. -/
def parseBack (today : String) (sub : Submission) : Except PyErr ParsedBack :=
  match getStr sub.fullName with
  | .error e => .error e
  | .ok full_name =>
  match ageDbOf sub.age with
  | .error e => .error e
  | .ok age =>
  match getStr sub.gender with
  | .error e => .error e
  | .ok gender =>
  match getStr sub.phone with
  | .error e => .error e
  | .ok phone =>
  match getStr sub.address with
  | .error e => .error e
  | .ok address =>
  match getStr sub.nativeState with
  | .error e => .error e
  | .ok native_state =>
  match getStr sub.bloodGroup with
  | .error e => .error e
  | .ok blood_group =>
  match getStr sub.maritalStatus with
  | .error e => .error e
  | .ok marital_status =>
  match getStr sub.language with
  | .error e => .error e
  | .ok language =>
  match getStr sub.financialStatus with
  | .error e => .error e
  | .ok financial_status =>
  match getStr sub.allergies with
  | .error e => .error e
  | .ok allergies =>
  match getStr sub.conditions with
  | .error e => .error e
  | .ok conditions =>
  match getStr sub.inheritedDiseases with
  | .error e => .error e
  | .ok inherited_diseases =>
  match getStr sub.previousTreatments with
  | .error e => .error e
  | .ok previous_treatments =>
  match computeVacc sub.vaccinationCount with
  | .error e => .error e
  | .ok vaccination_count =>
  .ok { full_name := full_name, age := age, gender := gender,
        phone := phone, address := address, native_state := native_state,
        blood_group := blood_group, marital_status := marital_status,
        language := language, financial_status := financial_status,
        allergies := allergies, conditions := conditions,
        inherited_diseases := inherited_diseases,
        previous_treatments := previous_treatments,
        vaccination_count := vaccination_count,
        registration_date := pyOr sub.registrationDate (.str today) }

/-- The QR payload of the relational variant (`src/app_back.py` lines
186-192): five fields only. -/
def qrPayloadBack (hid : String) (p : ParsedBack) : List (String × PyVal) :=
  [("healthId", .str hid),
   ("fullName", .str p.full_name),
   ("gender", .str p.gender),
   ("nativeState", .str p.native_state),
   ("registrationDate", p.registration_date)]

/-- The worker row as the relational upsert writes it: a fresh
`DBWorker(health_id=...)` with every mutable column assigned
(`src/app_back.py` lines 201-220). -/
def newDBRec (hid : String) (p : ParsedBack) (face_filename qr_filename : String)
    (rd : DateT) : DBWorkerR :=
  { health_id := hid, full_name := p.full_name, age := p.age,
    gender := p.gender, phone := p.phone, address := p.address,
    native_state := p.native_state, blood_group := p.blood_group,
    marital_status := p.marital_status, language := p.language,
    financial_status := p.financial_status, allergies := p.allergies,
    conditions := p.conditions, inherited_diseases := p.inherited_diseases,
    previous_treatments := p.previous_treatments,
    vaccination_count := p.vaccination_count, registration_date := rd,
    face_filename := face_filename, qr_filename := qr_filename }

/-- Overwrite every mutable column of the first row matching `hid`
(the row `query(...).filter_by(health_id=...).first()` returned);
`health_id` itself is never reassigned. -/
def updateFirstDB (hid : String) (fresh : DBWorkerR) :
    List DBWorkerR → List DBWorkerR
  | [] => []
  | r :: rs =>
    if r.health_id == hid then { fresh with health_id := r.health_id } :: rs
    else r :: updateFirstDB hid fresh rs

/-- The relational upsert: update the existing row in place when one
matches, insert a fresh row otherwise. -/
def upsertDB (hid : String) (fresh : DBWorkerR) (l : List DBWorkerR) :
    List DBWorkerR :=
  if l.any (fun r => r.health_id == hid) then updateFirstDB hid fresh l
  else l ++ [fresh]

/-- The persistent state of the relational variant: the `workers` table
and the two blob directories (shared layout with the flat variant). -/
structure DBState where
  workers : List DBWorkerR
  faces : Store Bytes
  qrs : Store QrImg
deriving DecidableEq, Repr

def emptyDBState : DBState := { workers := [], faces := [], qrs := [] }

/-- `w.registration_date = datetime.strptime(registration_date,
'%Y-%m-%d') if isinstance(registration_date, str) else
registration_date`: a string is parsed (raising on a malformed date); a
non-string value reaches the `DateTime` column unconverted and fails at
commit, modelled as an error. -/
def regDateBack (v : PyVal) : Except PyErr DateT :=
  match v with
  | .str s => parseDatePy s
  | _ => .error .typeError

/-- `POST /api/workers` of the relational variant (`src/app_back.py`
`create_worker`): validate, normalize, store the face, compose and
store the QR, then upsert into the `workers` table inside a
transaction.  A `strptime` failure rolls the transaction back (table
unchanged) but the already-written face/QR files persist. -/
def createWorkerBack (b64 : String → Option Bytes) (decode : Bytes → Option Face)
    (today : String) (sub : Submission) (st : DBState) : Resp × DBState :=
  match stripHealth sub with
  | .error _ => (.serverError, st)
  | .ok hid =>
    if hid = "" then (.badRequest, st)
    else
      match parseBack today sub with
      | .error _ => (.serverError, st)
      | .ok p =>
        let fo := faceOutcome b64 hid sub.faceImage
        let faces1 :=
          match fo.2 with
          | Option.some bs => insertStore st.faces (hid ++ ".png") bs
          | Option.none => st.faces
        let qr_text := jsonDumps (qrPayloadBack hid p)
        let qrImg := mkQrImg decode qr_text faces1
          (if fo.1 = "" then Option.none else Option.some fo.1)
        let qrs1 := insertStore st.qrs (hid ++ ".png") qrImg
        let st1 : DBState := { workers := st.workers, faces := faces1, qrs := qrs1 }
        match regDateBack p.registration_date with
        | .error _ => (.serverError, st1)
        | .ok rd =>
          let fresh := newDBRec hid p fo.1 (hid ++ ".png") rd
          (.created hid (fo.1 != ""),
           { st1 with workers := upsertDB hid fresh st.workers })

/-- The worker dict `_read_worker` of the relational variant returns
(`src/app_back.py` lines 112-140), with the documented `or ''` / `or
0` defaulting and `strftime` formatting. -/
structure BackRow where
  health_id : String
  full_name : String
  age : String
  gender : String
  phone : String
  address : String
  native_state : String
  blood_group : String
  marital_status : String
  language : String
  financial_status : String
  allergies : String
  conditions : String
  inherited_diseases : String
  previous_treatments : String
  vaccination_count : String
  registration_date : String
  face_filename : String
  qr_filename : String
deriving DecidableEq, Repr

/-- `str(w.age or '')`: an absent — or zero — column renders as the
empty string. -/
def ageCell (a : Option Int) : String :=
  match a with
  | Option.none => ""
  | Option.some n => if n = 0 then "" else toString n

def toBackRow (w : DBWorkerR) : BackRow :=
  { health_id := w.health_id, full_name := w.full_name,
    age := ageCell w.age, gender := w.gender, phone := w.phone,
    address := w.address, native_state := w.native_state,
    blood_group := w.blood_group, marital_status := w.marital_status,
    language := w.language, financial_status := w.financial_status,
    allergies := w.allergies, conditions := w.conditions,
    inherited_diseases := w.inherited_diseases,
    previous_treatments := w.previous_treatments,
    vaccination_count :=
      toString (if w.vaccination_count = 0 then 0 else w.vaccination_count),
    registration_date := dateStr w.registration_date,
    face_filename := w.face_filename, qr_filename := w.qr_filename }

/-- `_read_worker` of the relational variant: format the first matching
table row. -/
def readWorkerBack (ws : List DBWorkerR) (hid : String) : Option BackRow :=
  (ws.find? (fun r => r.health_id == hid)).map toBackRow

/-- The QR payload rebuilt from a stored worker on a cache miss
(`src/app_back.py` lines 350-356): the same five keys. -/
def qrPayloadBackRow (row : BackRow) : List (String × PyVal) :=
  [("healthId", .str row.health_id),
   ("fullName", .str row.full_name),
   ("gender", .str row.gender),
   ("nativeState", .str row.native_state),
   ("registrationDate", .str row.registration_date)]

/-- The image `_generate_qr_image` writes when the relational
`get_worker_qr` regenerates from a stored worker. -/
def regenImgBack (decode : Bytes → Option Face) (st : DBState) (row : BackRow) : QrImg :=
  mkQrImg decode (jsonDumps (qrPayloadBackRow row)) st.faces
    (if row.face_filename = "" then Option.none else Option.some row.face_filename)

/-- `GET /api/workers/{id}/qr.png` of the relational variant. -/
def getWorkerQrBack (decode : Bytes → Option Face) (hid : String)
    (st : DBState) : QrResp × DBState :=
  match lookupStore st.qrs (hid ++ ".png") with
  | Option.some img => (.png img, st)
  | Option.none =>
    match readWorkerBack st.workers hid with
    | Option.none => (.notFound, st)
    | Option.some row =>
      let img := regenImgBack decode st row
      (.png img, { st with qrs := insertStore st.qrs (hid ++ ".png") img })

/-! ## Store and upsert lemmas -/

/-- Number of CSV rows carrying a given identifier. -/
def countRows (rows : List Row) (hid : String) : Nat :=
  rows.countP (fun r => r.health_id == hid)

/-- Number of table rows carrying a given identifier. -/
def countDB (ws : List DBWorkerR) (hid : String) : Nat :=
  ws.countP (fun r => r.health_id == hid)

lemma insertStore_cons_ne {α : Type} (p : String × α) (ps : Store α) (k : String)
    (v : α) (hp : (p.1 == k) = false) :
    insertStore (p :: ps) k v = p :: insertStore ps k v := by
  have hp' : p.1 ≠ k := by simpa using hp
  unfold insertStore
  by_cases hps : ps.any (fun q => q.1 == k) <;>
    simp [List.any_cons, hp, hps, hp']

lemma lookupStore_insert_self {α : Type} (st : Store α) (k : String) (v : α) :
    lookupStore (insertStore st k v) k = Option.some v := by
  induction st with
  | nil => simp [insertStore, lookupStore]
  | cons p ps ih =>
    by_cases hp : p.1 = k
    · by_cases hps : ps.any (fun q => q.1 == k) <;>
        simp [insertStore, lookupStore, List.any_cons, hp, hps]
    · rw [insertStore_cons_ne p ps k v (by simp [hp])]
      simpa [lookupStore, List.find?_cons, hp] using ih

lemma countRows_map_replace (hid : String) (nr : Row) (hnr : nr.health_id = hid)
    (rows : List Row) :
    countRows (rows.map (fun r => if r.health_id == hid then nr else r)) hid =
      countRows rows hid := by
  induction rows with
  | nil => rfl
  | cons r rs ih =>
    by_cases hr : r.health_id = hid <;>
      simp [countRows, List.countP_cons, hr, hnr] at ih ⊢ <;> omega

lemma countRows_map_replace_other (hid h : String) (hne : hid ≠ h) (nr : Row)
    (hnr : nr.health_id = hid) (rows : List Row) :
    countRows (rows.map (fun r => if r.health_id == hid then nr else r)) h =
      countRows rows h := by
  induction rows with
  | nil => rfl
  | cons r rs ih =>
    by_cases hr : r.health_id = hid
    · have h1 : ¬nr.health_id = h := by rw [hnr]; exact hne
      have h2 : ¬r.health_id = h := by rw [hr]; exact hne
      simp [countRows, List.countP_cons, hr, h1, h2, hne] at ih ⊢
      exact ih
    · simp [countRows, List.countP_cons, hr] at ih ⊢
      omega

lemma countRows_nil_of_not_any (hid : String) (rows : List Row)
    (hany : ¬rows.any (fun r => r.health_id == hid)) :
    countRows rows hid = 0 := by
  rw [countRows, List.countP_eq_zero]
  intro r hrmem
  simp only [List.any_eq_true, not_exists, not_and] at hany
  exact fun hc => absurd hc (by simpa using hany r hrmem)

lemma countRows_upsert_self (hid : String) (nr : Row) (hnr : nr.health_id = hid)
    (rows : List Row) (hle : countRows rows hid ≤ 1) :
    countRows (upsertRows hid nr rows) hid = 1 := by
  unfold upsertRows
  by_cases hany : rows.any (fun r => r.health_id == hid)
  · rw [if_pos hany, countRows_map_replace hid nr hnr rows]
    have hpos : 0 < countRows rows hid := by
      rcases List.any_eq_true.mp hany with ⟨r, hrmem, hr⟩
      exact List.countP_pos_iff.mpr ⟨r, hrmem, hr⟩
    omega
  · rw [if_neg hany]
    have hzero := countRows_nil_of_not_any hid rows hany
    simp only [countRows, List.countP_append, List.countP_cons, List.countP_nil] at hzero ⊢
    simp [hnr, hzero]

lemma countRows_upsert_other (hid h : String) (hne : hid ≠ h) (nr : Row)
    (hnr : nr.health_id = hid) (rows : List Row) :
    countRows (upsertRows hid nr rows) h = countRows rows h := by
  unfold upsertRows
  by_cases hany : rows.any (fun r => r.health_id == hid)
  · rw [if_pos hany]
    exact countRows_map_replace_other hid h hne nr hnr rows
  · rw [if_neg hany]
    have h1 : ¬nr.health_id = h := by rw [hnr]; exact hne
    simp [countRows, List.countP_append, List.countP_cons, h1]

lemma find?_upsert_self (hid : String) (nr : Row) (hnr : nr.health_id = hid)
    (rows : List Row) :
    (upsertRows hid nr rows).find? (fun r => r.health_id == hid) =
      Option.some nr := by
  unfold upsertRows
  by_cases hany : rows.any (fun r => r.health_id == hid)
  · rw [if_pos hany]
    induction rows with
    | nil => simp at hany
    | cons r rs ih =>
      by_cases hr : r.health_id = hid
      · simp [List.find?_cons, hr, hnr]
      · have hany' : rs.any (fun q => q.health_id == hid) := by
          simpa [List.any_cons, hr] using hany
        simpa [List.find?_cons, hr] using ih hany'
  · rw [if_neg hany]
    induction rows with
    | nil => simp [List.find?_cons, hnr]
    | cons r rs ih =>
      have hr : ¬r.health_id = hid := by
        simp only [List.any_cons, Bool.or_eq_true] at hany
        intro hc
        exact hany (Or.inl (by simpa using hc))
      have hany' : ¬rs.any (fun q => q.health_id == hid) := by
        simp only [List.any_cons, Bool.or_eq_true] at hany
        exact fun hc => hany (Or.inr hc)
      simpa [List.find?_cons, hr] using ih hany'

lemma updateFirstDB_keeps_id (hid : String) (fresh r : DBWorkerR)
    (hr : r.health_id = hid) :
    ({ fresh with health_id := r.health_id } : DBWorkerR).health_id = hid := hr

lemma countDB_updateFirst (hid h : String) (fresh : DBWorkerR) (ws : List DBWorkerR) :
    countDB (updateFirstDB hid fresh ws) h = countDB ws h := by
  induction ws with
  | nil => rfl
  | cons r rs ih =>
    by_cases hr : r.health_id = hid
    · simp [updateFirstDB, countDB, List.countP_cons, hr]
    · simp only [updateFirstDB, hr]
      simp [countDB, List.countP_cons, hr] at ih ⊢
      omega

lemma countDB_nil_of_not_any (hid : String) (ws : List DBWorkerR)
    (hany : ¬ws.any (fun r => r.health_id == hid)) :
    countDB ws hid = 0 := by
  rw [countDB, List.countP_eq_zero]
  intro r hrmem
  simp only [List.any_eq_true, not_exists, not_and] at hany
  exact fun hc => absurd hc (by simpa using hany r hrmem)

lemma countDB_upsert_self (hid : String) (fresh : DBWorkerR)
    (hfr : fresh.health_id = hid) (ws : List DBWorkerR)
    (hle : countDB ws hid ≤ 1) :
    countDB (upsertDB hid fresh ws) hid = 1 := by
  unfold upsertDB
  by_cases hany : ws.any (fun r => r.health_id == hid)
  · rw [if_pos hany, countDB_updateFirst hid hid fresh ws]
    have hpos : 0 < countDB ws hid := by
      rcases List.any_eq_true.mp hany with ⟨r, hrmem, hr⟩
      exact List.countP_pos_iff.mpr ⟨r, hrmem, hr⟩
    omega
  · rw [if_neg hany]
    have hzero := countDB_nil_of_not_any hid ws hany
    simp only [countDB, List.countP_append, List.countP_cons, List.countP_nil] at hzero ⊢
    simp [hfr, hzero]

lemma countDB_upsert_other (hid h : String) (hne : hid ≠ h) (fresh : DBWorkerR)
    (hfr : fresh.health_id = hid) (ws : List DBWorkerR) :
    countDB (upsertDB hid fresh ws) h = countDB ws h := by
  unfold upsertDB
  by_cases hany : ws.any (fun r => r.health_id == hid)
  · rw [if_pos hany]
    exact countDB_updateFirst hid h fresh ws
  · rw [if_neg hany]
    have h1 : ¬fresh.health_id = h := by rw [hfr]; exact hne
    simp [countDB, List.countP_append, List.countP_cons, h1]

lemma with_health_id_self (fresh : DBWorkerR) (hid : String)
    (hfr : fresh.health_id = hid) :
    ({ fresh with health_id := hid } : DBWorkerR) = fresh := by
  cases fresh
  simp_all

lemma find?_upsertDB_self (hid : String) (fresh : DBWorkerR)
    (hfr : fresh.health_id = hid) (ws : List DBWorkerR) :
    (upsertDB hid fresh ws).find? (fun r => r.health_id == hid) =
      Option.some fresh := by
  unfold upsertDB
  by_cases hany : ws.any (fun r => r.health_id == hid)
  · rw [if_pos hany]
    induction ws with
    | nil => simp at hany
    | cons r rs ih =>
      by_cases hr : r.health_id = hid
      · have h2 : ({ fresh with health_id := hid } : DBWorkerR) = fresh :=
          with_health_id_self fresh hid hfr
        simp [updateFirstDB, List.find?_cons, hr, h2, hfr]
      · have hany' : rs.any (fun q => q.health_id == hid) := by
          simpa [List.any_cons, hr] using hany
        simpa [updateFirstDB, List.find?_cons, hr] using ih hany'
  · rw [if_neg hany]
    induction ws with
    | nil => simp [List.find?_cons, hfr]
    | cons r rs ih =>
      have hr : ¬r.health_id = hid := by
        simp only [List.any_cons, Bool.or_eq_true] at hany
        intro hc
        exact hany (Or.inl (by simpa using hc))
      have hany' : ¬rs.any (fun q => q.health_id == hid) := by
        simp only [List.any_cons, Bool.or_eq_true] at hany
        exact fun hc => hany (Or.inr hc)
      simpa [List.find?_cons, hr] using ih hany'

/-! ## Handler characterization lemmas -/

lemma createWorkerFlat_badRequest (b64 : String → Option Bytes)
    (dec : Bytes → Option Face) (today : String) (sub : Submission)
    (st : FlatState) (hs : stripHealth sub = .ok "") :
    createWorkerFlat b64 dec today sub st = (.badRequest, st) := by
  unfold createWorkerFlat
  rw [hs]
  rfl

lemma createWorkerFlat_stripErr (b64 : String → Option Bytes)
    (dec : Bytes → Option Face) (today : String) (sub : Submission)
    (st : FlatState) (e : PyErr) (hs : stripHealth sub = .error e) :
    createWorkerFlat b64 dec today sub st = (.serverError, st) := by
  unfold createWorkerFlat
  rw [hs]

lemma createWorkerFlat_parseErr (b64 : String → Option Bytes)
    (dec : Bytes → Option Face) (today : String) (sub : Submission)
    (st : FlatState) (hid : String) (e : PyErr)
    (hs : stripHealth sub = .ok hid) (hh : hid ≠ "")
    (hp : parseFlat today sub = .error e) :
    createWorkerFlat b64 dec today sub st = (.serverError, st) := by
  unfold createWorkerFlat
  rw [hs]
  simp [hh, hp]

lemma createWorkerFlat_ok_resp (b64 : String → Option Bytes)
    (dec : Bytes → Option Face) (today : String) (sub : Submission)
    (st : FlatState) (hid : String) (p : ParsedFlat)
    (hs : stripHealth sub = .ok hid) (hh : hid ≠ "")
    (hp : parseFlat today sub = .ok p) :
    (createWorkerFlat b64 dec today sub st).1 =
      .created hid ((faceOutcome b64 hid sub.faceImage).1 != "") := by
  unfold createWorkerFlat
  rw [hs]
  simp [hh, hp]

lemma createWorkerFlat_ok_csv (b64 : String → Option Bytes)
    (dec : Bytes → Option Face) (today : String) (sub : Submission)
    (st : FlatState) (hid : String) (p : ParsedFlat)
    (hs : stripHealth sub = .ok hid) (hh : hid ≠ "")
    (hp : parseFlat today sub = .ok p) :
    (createWorkerFlat b64 dec today sub st).2.csv =
      upsertRows hid
        (mkRowFlat hid p (faceOutcome b64 hid sub.faceImage).1 (hid ++ ".png"))
        st.csv := by
  unfold createWorkerFlat
  rw [hs]
  simp [hh, hp]

lemma createWorkerFlat_created_parse (b64 : String → Option Bytes)
    (dec : Bytes → Option Face) (today : String) (sub : Submission)
    (st : FlatState) (hid hid2 : String) (hf : Bool)
    (hs : stripHealth sub = .ok hid) (hh : hid ≠ "")
    (hcr : (createWorkerFlat b64 dec today sub st).1 = .created hid2 hf) :
    ∃ p, parseFlat today sub = .ok p := by
  cases hp : parseFlat today sub with
  | error e =>
    rw [createWorkerFlat_parseErr b64 dec today sub st hid e hs hh hp] at hcr
    exact absurd hcr (by simp)
  | ok p => exact ⟨p, rfl⟩

lemma countRows_createWorkerFlat (b64 : String → Option Bytes)
    (dec : Bytes → Option Face) (today : String) (sub : Submission)
    (st : FlatState) (h : String) (hle : countRows st.csv h ≤ 1) :
    countRows (createWorkerFlat b64 dec today sub st).2.csv h ≤ 1 := by
  cases hs : stripHealth sub with
  | error e =>
    rw [createWorkerFlat_stripErr b64 dec today sub st e hs]
    exact hle
  | ok hid =>
    by_cases hh : hid = ""
    · subst hh
      rw [createWorkerFlat_badRequest b64 dec today sub st hs]
      exact hle
    · cases hp : parseFlat today sub with
      | error e =>
        rw [createWorkerFlat_parseErr b64 dec today sub st hid e hs hh hp]
        exact hle
      | ok p =>
        rw [createWorkerFlat_ok_csv b64 dec today sub st hid p hs hh hp]
        by_cases hhid : hid = h
        · subst hhid
          rw [countRows_upsert_self hid _ rfl st.csv hle]
        · rw [countRows_upsert_other hid h hhid _ rfl st.csv]
          exact hle

lemma createWorkerBack_badRequest (b64 : String → Option Bytes)
    (dec : Bytes → Option Face) (today : String) (sub : Submission)
    (st : DBState) (hs : stripHealth sub = .ok "") :
    createWorkerBack b64 dec today sub st = (.badRequest, st) := by
  unfold createWorkerBack
  rw [hs]
  rfl

lemma createWorkerBack_stripErr (b64 : String → Option Bytes)
    (dec : Bytes → Option Face) (today : String) (sub : Submission)
    (st : DBState) (e : PyErr) (hs : stripHealth sub = .error e) :
    createWorkerBack b64 dec today sub st = (.serverError, st) := by
  unfold createWorkerBack
  rw [hs]

lemma createWorkerBack_parseErr (b64 : String → Option Bytes)
    (dec : Bytes → Option Face) (today : String) (sub : Submission)
    (st : DBState) (hid : String) (e : PyErr)
    (hs : stripHealth sub = .ok hid) (hh : hid ≠ "")
    (hp : parseBack today sub = .error e) :
    createWorkerBack b64 dec today sub st = (.serverError, st) := by
  unfold createWorkerBack
  rw [hs]
  simp [hh, hp]

lemma createWorkerBack_dateErr_workers (b64 : String → Option Bytes)
    (dec : Bytes → Option Face) (today : String) (sub : Submission)
    (st : DBState) (hid : String) (p : ParsedBack) (e : PyErr)
    (hs : stripHealth sub = .ok hid) (hh : hid ≠ "")
    (hp : parseBack today sub = .ok p)
    (hd : regDateBack p.registration_date = .error e) :
    (createWorkerBack b64 dec today sub st).1 = .serverError ∧
      (createWorkerBack b64 dec today sub st).2.workers = st.workers := by
  unfold createWorkerBack
  rw [hs]
  simp [hh, hp, hd]

lemma createWorkerBack_ok_resp (b64 : String → Option Bytes)
    (dec : Bytes → Option Face) (today : String) (sub : Submission)
    (st : DBState) (hid : String) (p : ParsedBack) (rd : DateT)
    (hs : stripHealth sub = .ok hid) (hh : hid ≠ "")
    (hp : parseBack today sub = .ok p)
    (hd : regDateBack p.registration_date = .ok rd) :
    (createWorkerBack b64 dec today sub st).1 =
      .created hid ((faceOutcome b64 hid sub.faceImage).1 != "") := by
  unfold createWorkerBack
  rw [hs]
  simp [hh, hp, hd]

lemma createWorkerBack_ok_workers (b64 : String → Option Bytes)
    (dec : Bytes → Option Face) (today : String) (sub : Submission)
    (st : DBState) (hid : String) (p : ParsedBack) (rd : DateT)
    (hs : stripHealth sub = .ok hid) (hh : hid ≠ "")
    (hp : parseBack today sub = .ok p)
    (hd : regDateBack p.registration_date = .ok rd) :
    (createWorkerBack b64 dec today sub st).2.workers =
      upsertDB hid
        (newDBRec hid p (faceOutcome b64 hid sub.faceImage).1 (hid ++ ".png") rd)
        st.workers := by
  unfold createWorkerBack
  rw [hs]
  simp [hh, hp, hd]

lemma createWorkerBack_created_parse (b64 : String → Option Bytes)
    (dec : Bytes → Option Face) (today : String) (sub : Submission)
    (st : DBState) (hid hid2 : String) (hf : Bool)
    (hs : stripHealth sub = .ok hid) (hh : hid ≠ "")
    (hcr : (createWorkerBack b64 dec today sub st).1 = .created hid2 hf) :
    ∃ p rd, parseBack today sub = .ok p ∧
      regDateBack p.registration_date = .ok rd := by
  cases hp : parseBack today sub with
  | error e =>
    rw [createWorkerBack_parseErr b64 dec today sub st hid e hs hh hp] at hcr
    exact absurd hcr (by simp)
  | ok p =>
    cases hd : regDateBack p.registration_date with
    | error e =>
      have := (createWorkerBack_dateErr_workers b64 dec today sub st hid p e
        hs hh hp hd).1
      rw [this] at hcr
      exact absurd hcr (by simp)
    | ok rd => exact ⟨p, rd, rfl, hd⟩

lemma countDB_createWorkerBack (b64 : String → Option Bytes)
    (dec : Bytes → Option Face) (today : String) (sub : Submission)
    (st : DBState) (h : String) (hle : countDB st.workers h ≤ 1) :
    countDB (createWorkerBack b64 dec today sub st).2.workers h ≤ 1 := by
  cases hs : stripHealth sub with
  | error e =>
    rw [createWorkerBack_stripErr b64 dec today sub st e hs]
    exact hle
  | ok hid =>
    by_cases hh : hid = ""
    · subst hh
      rw [createWorkerBack_badRequest b64 dec today sub st hs]
      exact hle
    · cases hp : parseBack today sub with
      | error e =>
        rw [createWorkerBack_parseErr b64 dec today sub st hid e hs hh hp]
        exact hle
      | ok p =>
        cases hd : regDateBack p.registration_date with
        | error e =>
          rw [(createWorkerBack_dateErr_workers b64 dec today sub st hid p e
            hs hh hp hd).2]
          exact hle
        | ok rd =>
          rw [createWorkerBack_ok_workers b64 dec today sub st hid p rd hs hh hp hd]
          by_cases hhid : hid = h
          · subst hhid
            rw [countDB_upsert_self hid _ rfl st.workers hle]
          · rw [countDB_upsert_other hid h hhid _ rfl st.workers]
            exact hle

/-! ## Thumbnail geometry lemmas -/

lemma div_scale_le (s a b : Nat) (hb : 1 ≤ b) (hab : a ≤ b) :
    (2 * s * a + b) / (2 * b) ≤ s := by
  have h1 : 2 * s * a + b < (s + 1) * (2 * b) := by nlinarith
  have h2 := (Nat.div_lt_iff_lt_mul (by omega : 0 < 2 * b)).mpr h1
  omega

lemma longSide_pilThumbSquare (w h s : Nat) (hs : 1 ≤ s) :
    longSide (pilThumbSquare w h s) = min (max w h) s := by
  unfold pilThumbSquare
  by_cases hfit : w ≤ s ∧ h ≤ s
  · rw [if_pos hfit]
    unfold longSide
    rw [Nat.min_eq_left (Nat.max_le.mpr ⟨hfit.1, hfit.2⟩)]
  · rw [if_neg hfit]
    by_cases hhw : h ≤ w
    · rw [if_pos hhw]
      have hws : s < w := by omega
      have hy := div_scale_le s h w (by omega) hhw
      unfold longSide
      rw [Nat.max_eq_left (Nat.max_le.mpr ⟨hs, hy⟩),
          Nat.max_eq_left hhw, Nat.min_eq_right (Nat.le_of_lt hws)]
    · rw [if_neg hhw]
      have hwh : w ≤ h := by omega
      have hhs : s < h := by omega
      have hy := div_scale_le s w h (by omega) hwh
      unfold longSide
      rw [Nat.max_eq_right (Nat.max_le.mpr ⟨hs, hy⟩),
          Nat.max_eq_right hwh, Nat.min_eq_right (Nat.le_of_lt hhs)]

lemma thumbTarget_ge (qrWidth : Nat) : 64 ≤ thumbTarget qrWidth :=
  le_max_left _ _

/-! ## Parser inversion lemmas -/

lemma parseFlat_ok_fields (today : String) (sub : Submission) (p : ParsedFlat)
    (hp : parseFlat today sub = .ok p) :
    getStr sub.fullName = .ok p.full_name ∧
    computeAge sub.age = .ok p.age ∧
    getStr sub.gender = .ok p.gender ∧
    getStr sub.phone = .ok p.phone ∧
    getStr sub.address = .ok p.address ∧
    getStr sub.nativeState = .ok p.native_state ∧
    getStr sub.bloodGroup = .ok p.blood_group ∧
    getStr sub.maritalStatus = .ok p.marital_status ∧
    getStr sub.language = .ok p.language ∧
    getStr sub.financialStatus = .ok p.financial_status ∧
    p.registration_date = pyOr sub.registrationDate (.str today) := by
  unfold parseFlat at hp
  cases h1 : getStr sub.fullName with
  | error e => simp [h1] at hp
  | ok v1 =>
    simp only [h1] at hp
    cases h2 : computeAge sub.age with
    | error e => simp [h2] at hp
    | ok v2 =>
      simp only [h2] at hp
      cases h3 : getStr sub.gender with
      | error e => simp [h3] at hp
      | ok v3 =>
        simp only [h3] at hp
        cases h4 : getStr sub.phone with
        | error e => simp [h4] at hp
        | ok v4 =>
          simp only [h4] at hp
          cases h5 : getStr sub.address with
          | error e => simp [h5] at hp
          | ok v5 =>
            simp only [h5] at hp
            cases h6 : getStr sub.nativeState with
            | error e => simp [h6] at hp
            | ok v6 =>
              simp only [h6] at hp
              cases h7 : getStr sub.bloodGroup with
              | error e => simp [h7] at hp
              | ok v7 =>
                simp only [h7] at hp
                cases h8 : getStr sub.maritalStatus with
                | error e => simp [h8] at hp
                | ok v8 =>
                  simp only [h8] at hp
                  cases h9 : getStr sub.language with
                  | error e => simp [h9] at hp
                  | ok v9 =>
                    simp only [h9] at hp
                    cases h10 : getStr sub.financialStatus with
                    | error e => simp [h10] at hp
                    | ok v10 =>
                      simp only [h10] at hp
                      simp only [Except.ok.injEq] at hp
                      subst hp
                      exact ⟨rfl, rfl, rfl, rfl, rfl, rfl, rfl, rfl, rfl, rfl, rfl⟩

lemma parseBack_ok_fields (today : String) (sub : Submission) (p : ParsedBack)
    (hp : parseBack today sub = .ok p) :
    getStr sub.fullName = .ok p.full_name ∧
    ageDbOf sub.age = .ok p.age ∧
    getStr sub.gender = .ok p.gender ∧
    getStr sub.phone = .ok p.phone ∧
    getStr sub.address = .ok p.address ∧
    getStr sub.nativeState = .ok p.native_state ∧
    getStr sub.bloodGroup = .ok p.blood_group ∧
    getStr sub.maritalStatus = .ok p.marital_status ∧
    getStr sub.language = .ok p.language ∧
    getStr sub.financialStatus = .ok p.financial_status ∧
    getStr sub.allergies = .ok p.allergies ∧
    getStr sub.conditions = .ok p.conditions ∧
    getStr sub.inheritedDiseases = .ok p.inherited_diseases ∧
    getStr sub.previousTreatments = .ok p.previous_treatments ∧
    computeVacc sub.vaccinationCount = .ok p.vaccination_count ∧
    p.registration_date = pyOr sub.registrationDate (.str today) := by
  unfold parseBack at hp
  cases h1 : getStr sub.fullName with
  | error e => simp [h1] at hp
  | ok v1 =>
    simp only [h1] at hp
    cases h2 : ageDbOf sub.age with
    | error e => simp [h2] at hp
    | ok v2 =>
      simp only [h2] at hp
      cases h3 : getStr sub.gender with
      | error e => simp [h3] at hp
      | ok v3 =>
        simp only [h3] at hp
        cases h4 : getStr sub.phone with
        | error e => simp [h4] at hp
        | ok v4 =>
          simp only [h4] at hp
          cases h5 : getStr sub.address with
          | error e => simp [h5] at hp
          | ok v5 =>
            simp only [h5] at hp
            cases h6 : getStr sub.nativeState with
            | error e => simp [h6] at hp
            | ok v6 =>
              simp only [h6] at hp
              cases h7 : getStr sub.bloodGroup with
              | error e => simp [h7] at hp
              | ok v7 =>
                simp only [h7] at hp
                cases h8 : getStr sub.maritalStatus with
                | error e => simp [h8] at hp
                | ok v8 =>
                  simp only [h8] at hp
                  cases h9 : getStr sub.language with
                  | error e => simp [h9] at hp
                  | ok v9 =>
                    simp only [h9] at hp
                    cases h10 : getStr sub.financialStatus with
                    | error e => simp [h10] at hp
                    | ok v10 =>
                      simp only [h10] at hp
                      cases h11 : getStr sub.allergies with
                      | error e => simp [h11] at hp
                      | ok v11 =>
                        simp only [h11] at hp
                        cases h12 : getStr sub.conditions with
                        | error e => simp [h12] at hp
                        | ok v12 =>
                          simp only [h12] at hp
                          cases h13 : getStr sub.inheritedDiseases with
                          | error e => simp [h13] at hp
                          | ok v13 =>
                            simp only [h13] at hp
                            cases h14 : getStr sub.previousTreatments with
                            | error e => simp [h14] at hp
                            | ok v14 =>
                              simp only [h14] at hp
                              cases h15 : computeVacc sub.vaccinationCount with
                              | error e => simp [h15] at hp
                              | ok v15 =>
                                simp only [h15] at hp
                                simp only [Except.ok.injEq] at hp
                                subst hp
                                exact ⟨rfl, rfl, rfl, rfl, rfl, rfl, rfl, rfl, rfl, rfl, rfl, rfl, rfl, rfl, rfl, rfl⟩


lemma mkQrImg_cfg (decode : Bytes → Option Face) (content : String)
    (faces : Store Bytes) (fn : Option String) :
    (mkQrImg decode content faces fn).cfg = workerQrConfig := by
  unfold mkQrImg
  cases fn with
  | none => rfl
  | some f =>
    cases hl : lookupStore faces f with
    | none => simp [hl]
    | some bs =>
      cases hd : decode bs with
      | none => simp [hl, hd]
      | some face => simp [hl, hd]

lemma mkQrImg_content (decode : Bytes → Option Face) (content : String)
    (faces : Store Bytes) (fn : Option String) :
    (mkQrImg decode content faces fn).content = content := by
  unfold mkQrImg
  cases fn with
  | none => rfl
  | some f =>
    cases hl : lookupStore faces f with
    | none => simp [hl]
    | some bs =>
      cases hd : decode bs with
      | none => simp [hl, hd]
      | some face => simp [hl, hd]

/-! ## Claim theorems -/

/-- C6: every worker QR is built with the medium error-correction tier
and a larger fixed symbol version (2) than the generic ad-hoc endpoint
(1), the generic `/api/generate-qr` symbol is built with the low tier,
and both use module size 10 device units and a 4-module border; the
composer always stamps the worker configuration on its output, and the
generic endpoint stamps the generic configuration. -/
theorem c6_qr_build_configs :
    workerQrConfig.error_correction = .M ∧
    genericQrConfig.error_correction = .L ∧
    genericQrConfig.version < workerQrConfig.version ∧
    workerQrConfig.box_size = 10 ∧ genericQrConfig.box_size = 10 ∧
    workerQrConfig.border = 4 ∧ genericQrConfig.border = 4 ∧
    (∀ (decode : Bytes → Option Face) (content : String) (faces : Store Bytes)
       (fn : Option String), (mkQrImg decode content faces fn).cfg = workerQrConfig) ∧
    generate_qr_generic (Option.some "hello") =
      .ok { cfg := genericQrConfig, content := "hello", overlay := Option.none } := by
  exact ⟨rfl, rfl, by decide, rfl, rfl, rfl, rfl,
    fun decode content faces fn => mkQrImg_cfg decode content faces fn,
    by decide⟩

/-- C9 counterexample: the simple variant's fixed column header
(`FIELDNAMES` in `src/app.py`) has 14 columns, not the claimed 16. -/
theorem c9_column_count_counterexample :
    FIELDNAMES.length = 14 ∧ ¬FIELDNAMES.length = 16 := by decide

/-- C9 (amended): the flat-file layout uses a fixed, ordered column
header with exactly 14 columns in the simple variant and exactly 19 in
the extended variant, running from the health identifier column through
the QR asset name column; every written row has exactly one cell per
column. -/
theorem c9_column_layout :
    FIELDNAMES.length = 14 ∧ CSV_HEADER_BACK.length = 19 ∧
    FIELDNAMES.head? = Option.some "health_id" ∧
    FIELDNAMES.getLast? = Option.some "qr_filename" ∧
    CSV_HEADER_BACK.head? = Option.some "health_id" ∧
    CSV_HEADER_BACK.getLast? = Option.some "qr_filename" ∧
    ∀ r : Row, (rowToCells r).length = FIELDNAMES.length := by
  exact ⟨by decide, by decide, by decide, by decide, by decide, by decide,
    fun r => rfl⟩

/-- A throwaway normalized record for exhibiting the relational QR
payload's key list. -/
def pBack0 : ParsedBack :=
  { full_name := "", age := Option.none, gender := "", phone := "",
    address := "", native_state := "", blood_group := "",
    marital_status := "", language := "", financial_status := "",
    allergies := "", conditions := "", inherited_diseases := "",
    previous_treatments := "", vaccination_count := 0,
    registration_date := .str "2024-01-15" }

/-- C3 counterexample: in the relational variant the QR payload is
built from only five fields — address, blood group, marital status and
financial status are absent — so the claimed nine-field subset is wrong
for that variant. -/
theorem c3_qr_payload_fields_counterexample :
    (qrPayloadBack "W1" pBack0).map Prod.fst =
      ["healthId", "fullName", "gender", "nativeState", "registrationDate"] ∧
    ¬((qrPayloadBack "W1" pBack0).map Prod.fst =
      ["healthId", "fullName", "gender", "address", "nativeState",
       "bloodGroup", "maritalStatus", "financialStatus", "registrationDate"]) := by
  decide

/-- C3 (amended): the flat-file variant's QR payload is built from
exactly the nine claimed fields (identifier, name, gender, address,
native state, blood group, marital status, financial status,
registration date), while the relational variant's QR payload is built
from exactly five (identifier, name, gender, native state, registration
date); the composer encodes exactly the text handed to it. -/
theorem c3_qr_payload_fields :
    (∀ (hid : String) (p : ParsedFlat),
      (qrPayloadApp hid p).map Prod.fst =
        ["healthId", "fullName", "gender", "address", "nativeState",
         "bloodGroup", "maritalStatus", "financialStatus", "registrationDate"]) ∧
    (∀ (hid : String) (q : ParsedBack),
      (qrPayloadBack hid q).map Prod.fst =
        ["healthId", "fullName", "gender", "nativeState", "registrationDate"]) ∧
    (∀ (decode : Bytes → Option Face) (content : String) (faces : Store Bytes)
       (fn : Option String), (mkQrImg decode content faces fn).content = content) := by
  exact ⟨fun _ _ => rfl, fun _ _ => rfl,
    fun decode content faces fn => mkQrImg_content decode content faces fn⟩

/-- C2 counterexample: a 10 × 10 face image composited onto a QR image
570 units wide (the width of a version-8 symbol at module size 10 with
a 4-module border, a size the worker payload genuinely reaches) is left
at 10 × 10 by `Image.thumbnail` — PIL never upscales — so the
thumbnail's longer side is not at least 64 device units. -/
theorem c2_thumbnail_lower_bound_counterexample :
    faceThumbDims 570 10 10 = (10, 10) ∧
    ¬(64 ≤ longSide (faceThumbDims 570 10 10)) := by decide

/-- C2 (amended): for every QR composition with a supplied, resolvable
face image, the resize target is `max 64 (qrWidth / 6)` — at least 64
device units; the thumbnail's longer side after resizing equals the
minimum of the original longer side and that target, hence never
exceeds the target, never exceeds the original (no upscaling), and a
face image larger than the target is downscaled to exactly the
target. -/
theorem c2_thumbnail_geometry (qrWidth w h : Nat) (_hw : 1 ≤ w) (_hh : 1 ≤ h) :
    longSide (faceThumbDims qrWidth w h) =
      min (longSide (w, h)) (thumbTarget qrWidth) ∧
    longSide (faceThumbDims qrWidth w h) ≤ longSide (w, h) ∧
    longSide (faceThumbDims qrWidth w h) ≤ thumbTarget qrWidth ∧
    (thumbTarget qrWidth < longSide (w, h) →
      longSide (faceThumbDims qrWidth w h) = thumbTarget qrWidth) ∧
    64 ≤ thumbTarget qrWidth := by
  have hs : 1 ≤ thumbTarget qrWidth := by
    have := thumbTarget_ge qrWidth
    omega
  have hkey := longSide_pilThumbSquare w h (thumbTarget qrWidth) hs
  unfold faceThumbDims
  refine ⟨hkey, ?_, ?_, ?_, thumbTarget_ge qrWidth⟩
  · rw [hkey]
    exact min_le_left _ _
  · rw [hkey]
    exact min_le_right _ _
  · intro hlt
    rw [hkey]
    exact Nat.min_eq_right (Nat.le_of_lt hlt)

/-- C2 witness: a 200 × 100 face on a 570-unit-wide QR is downscaled to
longer side 95 = max 64 (570 / 6). -/
theorem c2_thumbnail_geometry_witness :
    longSide (faceThumbDims 570 200 100) =
      min (longSide (200, 100)) (thumbTarget 570) ∧
    longSide (faceThumbDims 570 200 100) = 95 :=
  ⟨(c2_thumbnail_geometry 570 200 100 (by decide) (by decide)).1, by decide⟩

/-- C5: composing a QR whose face reference is absent, names a file
that does not exist, or names bytes the image decoder rejects yields
output identical to composing the same payload with no face image at
all; the composition is total (a decode failure is swallowed, never
propagated). -/
theorem c5_overlay_failure_plain_qr (decode : Bytes → Option Face)
    (content : String) (faces : Store Bytes) (fn : Option String)
    (hfail : fn = Option.none ∨
      (∃ f, fn = Option.some f ∧ lookupStore faces f = Option.none) ∨
      (∃ f b, fn = Option.some f ∧ lookupStore faces f = Option.some b ∧
        decode b = Option.none)) :
    mkQrImg decode content faces fn = mkQrImg decode content faces Option.none ∧
    (mkQrImg decode content faces fn).overlay = Option.none := by
  rcases hfail with hnone | ⟨f, hf, hl⟩ | ⟨f, b, hf, hl, hd⟩
  · subst hnone
    exact ⟨rfl, rfl⟩
  · subst hf
    unfold mkQrImg
    simp [hl]
  · subst hf
    unfold mkQrImg
    simp [hl, hd]

/-- C5 witness: a face file name that is not present in the face
directory produces exactly the plain QR. -/
theorem c5_overlay_failure_plain_qr_witness :
    mkQrImg (fun _ => Option.none) "payload" [] (Option.some "x.png") =
      mkQrImg (fun _ => Option.none) "payload" [] Option.none :=
  (c5_overlay_failure_plain_qr (fun _ => Option.none) "payload" []
    (Option.some "x.png") (Or.inr (Or.inl ⟨"x.png", rfl, rfl⟩))).1

/-- A base64 decoder that always fails; stands in for `base64.b64decode`
at concrete inputs where the outcome does not matter. -/
def noB64 : String → Option Bytes := fun _ => Option.none

/-- An image decoder that always fails; stands in for `Image.open` at
concrete inputs where the outcome does not matter. -/
def noDecode : Bytes → Option Face := fun _ => Option.none

/-- C4: a submission whose health identifier is empty after trimming
whitespace is rejected with the 400 validation response and the state —
identity store, face directory and QR directory — is returned exactly
unchanged, in both variants. -/
theorem c4_empty_id_rejected_no_side_effect
    (b64 : String → Option Bytes) (dec : Bytes → Option Face) (today : String)
    (sub : Submission) (stF : FlatState) (stD : DBState)
    (hs : stripHealth sub = .ok "") :
    createWorkerFlat b64 dec today sub stF = (.badRequest, stF) ∧
    createWorkerBack b64 dec today sub stD = (.badRequest, stD) :=
  ⟨createWorkerFlat_badRequest b64 dec today sub stF hs,
   createWorkerBack_badRequest b64 dec today sub stD hs⟩

/-- C4 witness: a whitespace-only identifier is rejected on the empty
stores with no state change. -/
theorem c4_empty_id_rejected_no_side_effect_witness :
    createWorkerFlat noB64 noDecode "2024-01-15"
      { emptySubmission with healthId := .str "   " } emptyFlatState =
      (.badRequest, emptyFlatState) ∧
    createWorkerBack noB64 noDecode "2024-01-15"
      { emptySubmission with healthId := .str "   " } emptyDBState =
      (.badRequest, emptyDBState) :=
  c4_empty_id_rejected_no_side_effect noB64 noDecode "2024-01-15"
    { emptySubmission with healthId := .str "   " } emptyFlatState emptyDBState
    (by decide)

/-- A submission with a non-numeric age, as a concrete failing input
for the age-parsing claim. -/
def subBadAge : Submission :=
  { emptySubmission with healthId := .str "W1", age := .str "abc" }

/-- C7 counterexample: a registration whose age is the non-numeric
string "abc" does not succeed with the age treated as absent —
`int('abc')` raises, the top-level handler answers 500, and nothing is
stored — in both variants.  This refutes "a bad age value never fails
the request". -/
theorem c7_bad_age_counterexample :
    createWorkerFlat noB64 noDecode "2024-01-01" subBadAge emptyFlatState =
      (.serverError, emptyFlatState) ∧
    createWorkerBack noB64 noDecode "2024-01-01" subBadAge emptyDBState =
      (.serverError, emptyDBState) := by decide

/-- C7 (amended): an omitted or falsy age / vaccination count parses to
the absent value resp. zero and the registration proceeds, but a
non-numeric string raises `ValueError`, which fails the whole request
with a 500 before any store is touched; values are parsed as plain
integers, with no non-negativity check (a negative age is stored
as-is). -/
theorem c7_age_vacc_parsing :
    (∀ v : PyVal, pyTruthy v = false →
      computeAge v = .ok "" ∧ ageDbOf v = .ok Option.none ∧ computeVacc v = .ok 0) ∧
    (∀ s : String, pyTruthy (.str s) = true → pyIntOfStr s = Option.none →
      computeAge (.str s) = .error .valueError ∧
      computeVacc (.str s) = .error .valueError) ∧
    (∀ (b64 : String → Option Bytes) (dec : Bytes → Option Face)
       (today : String) (sub : Submission) (st : FlatState) (hid : String)
       (e : PyErr), stripHealth sub = .ok hid → hid ≠ "" →
       parseFlat today sub = .error e →
       createWorkerFlat b64 dec today sub st = (.serverError, st)) ∧
    (∀ (b64 : String → Option Bytes) (dec : Bytes → Option Face)
       (today : String) (sub : Submission) (st : DBState) (hid : String)
       (e : PyErr), stripHealth sub = .ok hid → hid ≠ "" →
       parseBack today sub = .error e →
       createWorkerBack b64 dec today sub st = (.serverError, st)) ∧
    computeAge (.int (-5)) = .ok "-5" := by
  refine ⟨?_, ?_, ?_, ?_, by decide⟩
  · intro v hv
    cases v with
    | none => exact ⟨rfl, rfl, rfl⟩
    | str s =>
      simp [pyTruthy] at hv
      subst hv
      exact ⟨by decide, by decide, by decide⟩
    | int n =>
      simp [pyTruthy] at hv
      subst hv
      exact ⟨by decide, by decide, by decide⟩
  · intro s hs hn
    have h1 : pyOr (.str s) (.int 0) = .str s := by simp [pyOr, hs]
    unfold computeAge computeVacc
    rw [h1]
    simp [pyInt, hn, Except.map]
  · intro b64 dec today sub st hid e hs hh hp
    exact createWorkerFlat_parseErr b64 dec today sub st hid e hs hh hp
  · intro b64 dec today sub st hid e hs hh hp
    exact createWorkerBack_parseErr b64 dec today sub st hid e hs hh hp

/-- C7 witness: the defaulting conjunct at the absent age and the
propagation conjunct at the concrete non-numeric submission. -/
theorem c7_age_vacc_parsing_witness :
    computeAge .none = .ok "" ∧
    createWorkerFlat noB64 noDecode "2024-01-01" subBadAge emptyFlatState =
      (.serverError, emptyFlatState) :=
  ⟨(c7_age_vacc_parsing.1 .none rfl).1,
   c7_age_vacc_parsing.2.2.1 noB64 noDecode "2024-01-01" subBadAge
     emptyFlatState "W1" .valueError (by decide) (by decide) (by decide)⟩

/-- C10: a submission whose age is the number 0 or the string "0" is
normalized to the absent age — the empty-string cell in the flat-file
variant, NULL in the relational variant — and the stored record
reflects that, making an age of zero indistinguishable from an omitted
age. -/
theorem c10_zero_age_absent
    (b64 : String → Option Bytes) (dec : Bytes → Option Face) (today : String)
    (sub : Submission) (stF : FlatState) (stD : DBState) (hid : String)
    (hf hf2 : Bool)
    (hs : stripHealth sub = .ok hid) (hh : hid ≠ "")
    (hz : sub.age = .int 0 ∨ sub.age = .str "0") :
    (∀ p, parseFlat today sub = .ok p → p.age = "") ∧
    (∀ q, parseBack today sub = .ok q → q.age = Option.none) ∧
    ((createWorkerFlat b64 dec today sub stF).1 = .created hid hf →
      ∃ r, (createWorkerFlat b64 dec today sub stF).2.csv.find?
          (fun row => row.health_id == hid) = Option.some r ∧ r.age = "") ∧
    ((createWorkerBack b64 dec today sub stD).1 = .created hid hf2 →
      ∃ w, (createWorkerBack b64 dec today sub stD).2.workers.find?
          (fun row => row.health_id == hid) = Option.some w ∧
        w.age = Option.none) := by
  have hca : computeAge sub.age = .ok "" := by
    rcases hz with h | h <;> rw [h] <;> decide
  have hdb : ageDbOf sub.age = .ok Option.none := by
    rcases hz with h | h <;> rw [h] <;> decide
  have hflat : ∀ p, parseFlat today sub = .ok p → p.age = "" := by
    intro p hp
    have hage := (parseFlat_ok_fields today sub p hp).2.1
    rw [hca] at hage
    exact (Except.ok.inj hage).symm
  have hback : ∀ q, parseBack today sub = .ok q → q.age = Option.none := by
    intro q hq
    have hage := (parseBack_ok_fields today sub q hq).2.1
    rw [hdb] at hage
    exact (Except.ok.inj hage).symm
  refine ⟨hflat, hback, ?_, ?_⟩
  · intro hcr
    obtain ⟨p, hp⟩ :=
      createWorkerFlat_created_parse b64 dec today sub stF hid hid hf hs hh hcr
    refine ⟨mkRowFlat hid p (faceOutcome b64 hid sub.faceImage).1 (hid ++ ".png"),
      ?_, hflat p hp⟩
    rw [createWorkerFlat_ok_csv b64 dec today sub stF hid p hs hh hp]
    exact find?_upsert_self hid _ rfl stF.csv
  · intro hcr
    obtain ⟨q, rd, hq, hrd⟩ :=
      createWorkerBack_created_parse b64 dec today sub stD hid hid hf2 hs hh hcr
    refine ⟨newDBRec hid q (faceOutcome b64 hid sub.faceImage).1 (hid ++ ".png") rd,
      ?_, hback q hq⟩
    rw [createWorkerBack_ok_workers b64 dec today sub stD hid q rd hs hh hq hrd]
    exact find?_upsertDB_self hid _ rfl stD.workers

/-- A submission with age 0, as a concrete input for the zero-age
claim. -/
def subZeroAge : Submission :=
  { emptySubmission with
    healthId := .str "W1"
    age := .int 0
    registrationDate := .str "2024-01-15" }

/-- C10 witness: registering with age 0 on the empty stores leaves a
record whose age cell is empty (flat) resp. NULL (relational). -/
theorem c10_zero_age_absent_witness :
    (∃ r, (createWorkerFlat noB64 noDecode "2024-01-15" subZeroAge
        emptyFlatState).2.csv.find? (fun row => row.health_id == "W1") =
        Option.some r ∧ r.age = "") ∧
    (∃ w, (createWorkerBack noB64 noDecode "2024-01-15" subZeroAge
        emptyDBState).2.workers.find? (fun row => row.health_id == "W1") =
        Option.some w ∧ w.age = Option.none) :=
  ⟨(c10_zero_age_absent noB64 noDecode "2024-01-15" subZeroAge emptyFlatState
      emptyDBState "W1" false false (by decide) (by decide)
      (Or.inl rfl)).2.2.1 (by decide),
   (c10_zero_age_absent noB64 noDecode "2024-01-15" subZeroAge emptyFlatState
      emptyDBState "W1" false false (by decide) (by decide)
      (Or.inl rfl)).2.2.2 (by decide)⟩

/-- C1: two successive register calls with the same non-empty trimmed
health identifier — possibly with different field values — leave the
identity store with exactly one record for that identifier, whose
fields are exactly the second submission's normalized values (and the
derived face / QR file names), in both the flat-file and the relational
variant; the only hygiene assumption is that the initial store held at
most one record for the identifier, which every state reachable through
the upsert preserves. -/
theorem c1_register_upsert_unique
    (b64 : String → Option Bytes) (dec : Bytes → Option Face)
    (t1 t2 : String) (sub1 sub2 : Submission) (hid : String)
    (stF : FlatState) (stD : DBState) (hf1 hf2 : Bool)
    (_hs1 : stripHealth sub1 = .ok hid) (hs2 : stripHealth sub2 = .ok hid)
    (hh : hid ≠ "")
    (hcF : countRows stF.csv hid ≤ 1)
    (hcD : countDB stD.workers hid ≤ 1)
    (hcrF : (createWorkerFlat b64 dec t2 sub2
      (createWorkerFlat b64 dec t1 sub1 stF).2).1 = .created hid hf1)
    (hcrD : (createWorkerBack b64 dec t2 sub2
      (createWorkerBack b64 dec t1 sub1 stD).2).1 = .created hid hf2) :
    countRows (createWorkerFlat b64 dec t2 sub2
      (createWorkerFlat b64 dec t1 sub1 stF).2).2.csv hid = 1 ∧
    countDB (createWorkerBack b64 dec t2 sub2
      (createWorkerBack b64 dec t1 sub1 stD).2).2.workers hid = 1 ∧
    (∃ p2, parseFlat t2 sub2 = .ok p2 ∧
      (createWorkerFlat b64 dec t2 sub2
        (createWorkerFlat b64 dec t1 sub1 stF).2).2.csv.find?
          (fun r => r.health_id == hid) =
        Option.some (mkRowFlat hid p2 (faceOutcome b64 hid sub2.faceImage).1
          (hid ++ ".png"))) ∧
    (∃ q2 rd2, parseBack t2 sub2 = .ok q2 ∧
      regDateBack q2.registration_date = .ok rd2 ∧
      (createWorkerBack b64 dec t2 sub2
        (createWorkerBack b64 dec t1 sub1 stD).2).2.workers.find?
          (fun r => r.health_id == hid) =
        Option.some (newDBRec hid q2 (faceOutcome b64 hid sub2.faceImage).1
          (hid ++ ".png") rd2)) := by
  have hc1F : countRows (createWorkerFlat b64 dec t1 sub1 stF).2.csv hid ≤ 1 :=
    countRows_createWorkerFlat b64 dec t1 sub1 stF hid hcF
  have hc1D : countDB (createWorkerBack b64 dec t1 sub1 stD).2.workers hid ≤ 1 :=
    countDB_createWorkerBack b64 dec t1 sub1 stD hid hcD
  obtain ⟨p2, hp2⟩ := createWorkerFlat_created_parse b64 dec t2 sub2
    (createWorkerFlat b64 dec t1 sub1 stF).2 hid hid hf1 hs2 hh hcrF
  obtain ⟨q2, rd2, hq2, hrd⟩ := createWorkerBack_created_parse b64 dec t2 sub2
    (createWorkerBack b64 dec t1 sub1 stD).2 hid hid hf2 hs2 hh hcrD
  have hcsv := createWorkerFlat_ok_csv b64 dec t2 sub2
    (createWorkerFlat b64 dec t1 sub1 stF).2 hid p2 hs2 hh hp2
  have hwork := createWorkerBack_ok_workers b64 dec t2 sub2
    (createWorkerBack b64 dec t1 sub1 stD).2 hid q2 rd2 hs2 hh hq2 hrd
  refine ⟨?_, ?_, ⟨p2, hp2, ?_⟩, ⟨q2, rd2, hq2, hrd, ?_⟩⟩
  · rw [hcsv]
    exact countRows_upsert_self hid _ rfl _ hc1F
  · rw [hwork]
    exact countDB_upsert_self hid _ rfl _ hc1D
  · rw [hcsv]
    exact find?_upsert_self hid _ rfl _
  · rw [hwork]
    exact find?_upsertDB_self hid _ rfl _

/-- First registration of the idempotence witness. -/
def c1subA : Submission :=
  { emptySubmission with
    healthId := .str "W1"
    fullName := .str "Asha"
    registrationDate := .str "2024-01-15" }

/-- Second registration of the idempotence witness: same identifier
(modulo surrounding whitespace), different field values. -/
def c1subB : Submission :=
  { emptySubmission with
    healthId := .str " W1 "
    fullName := .str "Asha Devi"
    age := .str "30"
    registrationDate := .str "2024-02-01" }

/-- C1 witness: registering W1 twice on the empty stores leaves exactly
one W1 record in each store. -/
theorem c1_register_upsert_unique_witness :
    countRows (createWorkerFlat noB64 noDecode "2024-02-01" c1subB
      (createWorkerFlat noB64 noDecode "2024-01-15" c1subA
        emptyFlatState).2).2.csv "W1" = 1 ∧
    countDB (createWorkerBack noB64 noDecode "2024-02-01" c1subB
      (createWorkerBack noB64 noDecode "2024-01-15" c1subA
        emptyDBState).2).2.workers "W1" = 1 :=
  ⟨(c1_register_upsert_unique noB64 noDecode "2024-01-15" "2024-02-01"
      c1subA c1subB "W1" emptyFlatState emptyDBState false false
      (by decide) (by decide) (by decide) (by decide) (by decide)
      (by decide) (by decide)).1,
   (c1_register_upsert_unique noB64 noDecode "2024-01-15" "2024-02-01"
      c1subA c1subB "W1" emptyFlatState emptyDBState false false
      (by decide) (by decide) (by decide) (by decide) (by decide)
      (by decide) (by decide)).2.1⟩

lemma getWorkerQrFlat_hit (dec : Bytes → Option Face) (hid : String)
    (st : FlatState) (img : QrImg)
    (h : lookupStore st.qrs (hid ++ ".png") = Option.some img) :
    getWorkerQrFlat dec hid st = (.png img, st) := by
  unfold getWorkerQrFlat
  rw [h]

lemma getWorkerQrFlat_miss_unknown (dec : Bytes → Option Face) (hid : String)
    (st : FlatState)
    (h1 : lookupStore st.qrs (hid ++ ".png") = Option.none)
    (h2 : readWorkerFlat st.csv hid = Option.none) :
    getWorkerQrFlat dec hid st = (.notFound, st) := by
  unfold getWorkerQrFlat
  rw [h1, h2]

lemma getWorkerQrFlat_miss_known (dec : Bytes → Option Face) (hid : String)
    (st : FlatState) (row : Row)
    (h1 : lookupStore st.qrs (hid ++ ".png") = Option.none)
    (h2 : readWorkerFlat st.csv hid = Option.some row) :
    getWorkerQrFlat dec hid st =
      (.png (regenImgFlat dec st row),
       { st with qrs := insertStore st.qrs (hid ++ ".png") (regenImgFlat dec st row) }) := by
  unfold getWorkerQrFlat
  rw [h1, h2]

lemma getWorkerQrBack_hit (dec : Bytes → Option Face) (hid : String)
    (st : DBState) (img : QrImg)
    (h : lookupStore st.qrs (hid ++ ".png") = Option.some img) :
    getWorkerQrBack dec hid st = (.png img, st) := by
  unfold getWorkerQrBack
  rw [h]

lemma getWorkerQrBack_miss_unknown (dec : Bytes → Option Face) (hid : String)
    (st : DBState)
    (h1 : lookupStore st.qrs (hid ++ ".png") = Option.none)
    (h2 : readWorkerBack st.workers hid = Option.none) :
    getWorkerQrBack dec hid st = (.notFound, st) := by
  unfold getWorkerQrBack
  rw [h1, h2]

lemma getWorkerQrBack_miss_known (dec : Bytes → Option Face) (hid : String)
    (st : DBState) (row : BackRow)
    (h1 : lookupStore st.qrs (hid ++ ".png") = Option.none)
    (h2 : readWorkerBack st.workers hid = Option.some row) :
    getWorkerQrBack dec hid st =
      (.png (regenImgBack dec st row),
       { st with qrs := insertStore st.qrs (hid ++ ".png") (regenImgBack dec st row) }) := by
  unfold getWorkerQrBack
  rw [h1, h2]

/-- C8: fetching a worker's QR image serves the cached asset when one
exists (even for an unknown worker); on a cache miss it answers 404
exactly when the worker record is also unknown; and on a cache miss
with a known record it rebuilds the image from the stored record plus
any stored face asset, persists it under the worker's QR file name, and
serves it — so an immediately repeated fetch is a cache hit returning
the same image with no further state change.  Both variants. -/
theorem c8_qr_regenerate_on_miss (dec : Bytes → Option Face) (hid : String)
    (stF : FlatState) (stD : DBState) :
    (∀ img, lookupStore stF.qrs (hid ++ ".png") = Option.some img →
      getWorkerQrFlat dec hid stF = (.png img, stF)) ∧
    (lookupStore stF.qrs (hid ++ ".png") = Option.none →
      readWorkerFlat stF.csv hid = Option.none →
      getWorkerQrFlat dec hid stF = (.notFound, stF)) ∧
    (∀ row, lookupStore stF.qrs (hid ++ ".png") = Option.none →
      readWorkerFlat stF.csv hid = Option.some row →
      (getWorkerQrFlat dec hid stF).1 = .png (regenImgFlat dec stF row) ∧
      lookupStore (getWorkerQrFlat dec hid stF).2.qrs (hid ++ ".png") =
        Option.some (regenImgFlat dec stF row) ∧
      getWorkerQrFlat dec hid (getWorkerQrFlat dec hid stF).2 =
        (.png (regenImgFlat dec stF row), (getWorkerQrFlat dec hid stF).2)) ∧
    (∀ img, lookupStore stD.qrs (hid ++ ".png") = Option.some img →
      getWorkerQrBack dec hid stD = (.png img, stD)) ∧
    (lookupStore stD.qrs (hid ++ ".png") = Option.none →
      readWorkerBack stD.workers hid = Option.none →
      getWorkerQrBack dec hid stD = (.notFound, stD)) ∧
    (∀ row, lookupStore stD.qrs (hid ++ ".png") = Option.none →
      readWorkerBack stD.workers hid = Option.some row →
      (getWorkerQrBack dec hid stD).1 = .png (regenImgBack dec stD row) ∧
      lookupStore (getWorkerQrBack dec hid stD).2.qrs (hid ++ ".png") =
        Option.some (regenImgBack dec stD row) ∧
      getWorkerQrBack dec hid (getWorkerQrBack dec hid stD).2 =
        (.png (regenImgBack dec stD row), (getWorkerQrBack dec hid stD).2)) := by
  refine ⟨fun img h => getWorkerQrFlat_hit dec hid stF img h,
    fun h1 h2 => getWorkerQrFlat_miss_unknown dec hid stF h1 h2,
    fun row h1 h2 => ?_,
    fun img h => getWorkerQrBack_hit dec hid stD img h,
    fun h1 h2 => getWorkerQrBack_miss_unknown dec hid stD h1 h2,
    fun row h1 h2 => ?_⟩
  · have hk := getWorkerQrFlat_miss_known dec hid stF row h1 h2
    have hlook : lookupStore (getWorkerQrFlat dec hid stF).2.qrs (hid ++ ".png") =
        Option.some (regenImgFlat dec stF row) := by
      rw [hk]
      exact lookupStore_insert_self stF.qrs (hid ++ ".png") (regenImgFlat dec stF row)
    refine ⟨by rw [hk], hlook, ?_⟩
    rw [getWorkerQrFlat_hit dec hid (getWorkerQrFlat dec hid stF).2
      (regenImgFlat dec stF row) hlook]
  · have hk := getWorkerQrBack_miss_known dec hid stD row h1 h2
    have hlook : lookupStore (getWorkerQrBack dec hid stD).2.qrs (hid ++ ".png") =
        Option.some (regenImgBack dec stD row) := by
      rw [hk]
      exact lookupStore_insert_self stD.qrs (hid ++ ".png") (regenImgBack dec stD row)
    refine ⟨by rw [hk], hlook, ?_⟩
    rw [getWorkerQrBack_hit dec hid (getWorkerQrBack dec hid stD).2
      (regenImgBack dec stD row) hlook]

/-- A stored flat-file row for the regenerate-on-miss witness. -/
def c8row : Row :=
  { health_id := "W1", full_name := "Asha", age := "", gender := "",
    phone := "", address := "", native_state := "", blood_group := "",
    marital_status := "", language := "", financial_status := "",
    registration_date := "2024-01-15", face_filename := "",
    qr_filename := "W1.png" }

/-- A flat-file state holding the row but no cached QR asset. -/
def c8stF : FlatState := { csv := [c8row], faces := [], qrs := [] }

/-- A stored worker for the relational regenerate-on-miss witness. -/
def c8dbw : DBWorkerR :=
  { health_id := "W1", full_name := "Asha", age := Option.none,
    gender := "", phone := "", address := "", native_state := "",
    blood_group := "", marital_status := "", language := "",
    financial_status := "", allergies := "", conditions := "",
    inherited_diseases := "", previous_treatments := "",
    vaccination_count := 0,
    registration_date := { y := 2024, m := 1, d := 15 },
    face_filename := "", qr_filename := "W1.png" }

/-- A relational state holding the worker but no cached QR asset. -/
def c8stD : DBState := { workers := [c8dbw], faces := [], qrs := [] }

/-- C8 witness: with a stored record and an empty QR cache, the first
fetch regenerates and persists, and the immediately repeated fetch is a
cache hit returning the same image with no further state change. -/
theorem c8_qr_regenerate_on_miss_witness :
    getWorkerQrFlat noDecode "W1" (getWorkerQrFlat noDecode "W1" c8stF).2 =
      (.png (regenImgFlat noDecode c8stF c8row),
       (getWorkerQrFlat noDecode "W1" c8stF).2) ∧
    getWorkerQrBack noDecode "W1" (getWorkerQrBack noDecode "W1" c8stD).2 =
      (.png (regenImgBack noDecode c8stD (toBackRow c8dbw)),
       (getWorkerQrBack noDecode "W1" c8stD).2) :=
  ⟨((c8_qr_regenerate_on_miss noDecode "W1" c8stF c8stD).2.2.1 c8row
      rfl rfl).2.2,
   ((c8_qr_regenerate_on_miss noDecode "W1" c8stF c8stD).2.2.2.2.2
      (toBackRow c8dbw) rfl rfl).2.2⟩
